import Mathlib

/-!
Verification of the relay handler in `backend/main.go` (`chatHandler`).

The handler is straight-line Go code: it decodes the inbound body into a
`map[string]interface` value, validates the `question` field, builds a fixed
chat-completion payload, performs one HTTP POST to the upstream API, and
either passes a non-200 status through with an error body or extracts
`choices[0].message.content` from the 200 body.

JSON values are modelled by the inductive type `Json`; Go maps obtained from
`encoding/json` are modelled as association lists where the last binding for
a key wins (Go's decoder overwrites earlier duplicate keys). The outside
world (the upstream HTTP exchange) is an explicit `Env` value: the outcome of
`client.Do`, and the outcome of reading the response body. The handler is a
pure function from the decoded inbound body and the environment to the
response it writes plus the list of upstream request payloads it issued.
-/

/-- JSON values as produced by Go's `encoding/json` when decoding into an
untyped `interface` value: null, booleans, numbers, strings, arrays, and
objects. Numbers are modelled as rationals; the program never branches on a
numeric value. -/
inductive Json : Type where
  | null : Json
  | bool (b : Bool) : Json
  | num (q : ℚ) : Json
  | str (s : String) : Json
  | arr (elems : List Json) : Json
  | obj (fields : List (String × Json)) : Json
  deriving Repr

/-- Lookup in a decoded Go map, modelled on an association list. Go's JSON
decoder lets a later duplicate key overwrite an earlier one, so the last
binding wins. Returns `none` when the key is absent (Go: the zero value
`nil`, which fails every subsequent type assertion). -/
def getField (fields : List (String × Json)) (k : String) : Option Json :=
  (fields.reverse.find? (fun p => p.1 == k)).map (fun p => p.2)

/-- Field lookup directly on a `Json` value; `none` on non-objects. -/
def jGet (j : Json) (k : String) : Option Json :=
  match j with
  | Json.obj fields => getField fields k
  | _ => none

/-- Result of Go's `json.Unmarshal(data, &m)` for `m : map[string]interface`:
it fails when the data is not valid JSON (`none` input) or is valid JSON
whose top level is not an object — except that a top-level JSON `null`
succeeds and leaves the map `nil`, on which every lookup misses (modelled as
the empty association list). This same decoding is performed by fiber's
`BodyParser` on the inbound body (line 49) and by `json.Unmarshal` on the
upstream body (line 129). -/
def goUnmarshalMap : Option Json → Option (List (String × Json))
  | some (Json.obj fields) => some fields
  | some Json.null => some []
  | _ => none

/-- Validation of the inbound request, lines 46-61: the body must decode into
a map and its `question` entry must type-assert to a non-empty string
(`question, ok := requestData["question"].(string); if !ok || question == ""`).
Note the code does not trim: a whitespace-only question passes. -/
def validatedQuestion (reqBody : Option Json) : Option String :=
  match goUnmarshalMap reqBody with
  | none => none
  | some requestData =>
    match getField requestData "question" with
    | some (Json.str question) => if question = "" then none else some question
    | _ => none

/-- Constant system message of the upstream payload, lines 66-69. -/
def systemMessage : Json :=
  Json.obj [("role", Json.str "system"),
            ("content", Json.str "You are an AI that provides direct answers to coding questions.")]

/-- User message of the upstream payload, lines 70-73: the validated question
verbatim. -/
def userMessage (question : String) : Json :=
  Json.obj [("role", Json.str "user"), ("content", Json.str question)]

/-- Upstream request payload built at lines 63-78. Field order in the
association list follows the source; `json.Marshal` serialises Go maps with
sorted keys, but no claim concerns the wire order. -/
def requestPayload (question : String) : Json :=
  Json.obj [("model", Json.str "meta/llama3-70b-instruct"),
            ("messages", Json.arr [systemMessage, userMessage question]),
            ("temperature", Json.num (1/2)),
            ("top_p", Json.num 1),
            ("max_tokens", Json.num 1024)]

/-- Upstream HTTP response as the handler observes it: the numeric status
code (`resp.StatusCode`), the status text (`resp.Status`, e.g. "200 OK"), the
raw body bytes read at line 108, the parse of those bytes as JSON (`none`
when they are not valid JSON), and the error text `json.Unmarshal` would
report when it fails on them. -/
structure UpstreamResult : Type where
  statusCode : Nat
  statusText : String
  body : String
  bodyJson : Option Json
  unmarshalErr : String
  deriving Repr

/-- Outcome of `client.Do(req)` at line 98: a transport-level failure with an
error message, or an HTTP response. -/
inductive DoOutcome : Type where
  | failure (errMsg : String) : DoOutcome
  | success (result : UpstreamResult) : DoOutcome
  deriving Repr

/-- Environment of one handler run: the outcome of the single `client.Do`
call, and the outcome of `ioutil.ReadAll` on the response body (`some msg`
when reading fails, line 108). `http.NewRequest` at line 84 is not modelled
as fallible: its method and URL arguments are the constants "POST" and the
fixed API URL, for which it cannot return an error. -/
structure Env : Type where
  doOutcome : DoOutcome
  readError : Option String
  deriving Repr

/-- Response written back to the caller: HTTP status and the JSON object
passed to `c.JSON` (a `fiber.Map`, modelled as an association list). -/
structure OutResponse : Type where
  status : Nat
  body : List (String × Json)
  deriving Repr

/-- Response of lines 139-163, shared by every shape-assertion failure. -/
def shapeErrorResponse : OutResponse :=
  ⟨500, [("error", Json.str "Unexpected response structure from API")]⟩

/-- Extraction stage, lines 128-167: unmarshal the 200 body into a map
(failure: the parse-error response), then assert in turn that `choices` is a
non-empty array, `choices[0]` is an object, its `message` is an object, and
its `content` is a string; each failed assertion yields the same
`shapeErrorResponse`, and success yields status 200 with the content string
under `answer`. -/
def extractResponse (bodyJson : Option Json) (unmarshalErrText : String) : OutResponse :=
  match goUnmarshalMap bodyJson with
  | none => ⟨500, [("error", Json.str ("Error parsing JSON response: " ++ unmarshalErrText))]⟩
  | some result =>
    match getField result "choices" with
    | some (Json.arr choices) =>
      match choices with
      | [] => shapeErrorResponse
      | firstChoiceVal :: _ =>
        match firstChoiceVal with
        | Json.obj firstChoice =>
          match getField firstChoice "message" with
          | some (Json.obj message) =>
            match getField message "content" with
            | some (Json.str answer) => ⟨200, [("answer", Json.str answer)]⟩
            | _ => shapeErrorResponse
          | _ => shapeErrorResponse
        | _ => shapeErrorResponse
    | _ => shapeErrorResponse

/-- The successful extraction path of lines 137-163 in isolation:
`choices[0].message.content` when every assertion holds, `none` otherwise. -/
def extractContent (result : List (String × Json)) : Option String :=
  match getField result "choices" with
  | some (Json.arr (firstChoiceVal :: _)) =>
    match firstChoiceVal with
    | Json.obj firstChoice =>
      match getField firstChoice "message" with
      | some (Json.obj message) =>
        match getField message "content" with
        | some (Json.str answer) => some answer
        | _ => none
      | _ => none
    | _ => none
  | _ => none

/-- The relay handler, lines 40-167, as a pure function of the decoded
inbound body and the environment. The second component of the result is the
list of upstream request payloads issued during the run (the payload is
recorded when `client.Do` is invoked, whether or not the call succeeds);
the code contains no loop, so the list is `[]` or a singleton. -/
def chatHandler (reqBody : Option Json) (env : Env) : OutResponse × List Json :=
  match goUnmarshalMap reqBody with
  | none => (⟨400, [("error", Json.str "Invalid request body")]⟩, [])
  | some requestData =>
    match getField requestData "question" with
    | some (Json.str question) =>
      if question = "" then
        (⟨400, [("error", Json.str "Invalid question format or empty question")]⟩, [])
      else
        match env.doOutcome with
        | DoOutcome.failure errMsg =>
          (⟨500, [("error", Json.str ("Error sending request: " ++ errMsg))]⟩,
           [requestPayload question])
        | DoOutcome.success r =>
          match env.readError with
          | some readErrMsg =>
            (⟨500, [("error", Json.str ("Error reading response body: " ++ readErrMsg))]⟩,
             [requestPayload question])
          | none =>
            if r.statusCode ≠ 200 then
              (⟨r.statusCode,
                [("error", Json.str ("API returned non-200 status: " ++ r.statusText
                    ++ "\nBody: " ++ r.body))]⟩,
               [requestPayload question])
            else
              (extractResponse r.bodyJson r.unmarshalErr, [requestPayload question])
    | _ => (⟨400, [("error", Json.str "Invalid question format or empty question")]⟩, [])

/-- Well-shaped 200 body of the round-trip scenario. -/
def body42 : Json :=
  Json.obj [("choices", Json.arr [Json.obj [("message", Json.obj [("content", Json.str "42")])]])]

/-- Raw text of `body42` as the upstream would send it. -/
def body42Text : String :=
  "\x7b\"choices\":[\x7b\"message\":\x7b\"content\":\"42\"\x7d\x7d]\x7d"

/-- Inbound body `\x7b"question":"hi"\x7d`. -/
def reqHi : Option Json := some (Json.obj [("question", Json.str "hi")])

/-- Environment: upstream answers 200 with `body42`. -/
def env200ok : Env :=
  ⟨DoOutcome.success ⟨200, "200 OK", body42Text, some body42, ""⟩, none⟩

/-- Keys of the JSON object a response carries, in order. -/
def bodyKeys (resp : OutResponse) : List String := resp.body.map (fun p => p.1)

/-- Environment: transport-level failure of the upstream call. -/
def envFail : Env := ⟨DoOutcome.failure "connection refused", none⟩

/-- Environment: upstream answers 201 (a 2xx status other than 200) with the
well-shaped `body42`. -/
def env201 : Env :=
  ⟨DoOutcome.success ⟨201, "201 Created", body42Text, some body42, ""⟩, none⟩

/-- Environment: upstream answers 202 with the empty JSON object (no
`choices` at all). -/
def env202 : Env :=
  ⟨DoOutcome.success ⟨202, "202 Accepted", "\x7b\x7d", some (Json.obj []), ""⟩, none⟩

/-- Environment: upstream answers 206 (a 2xx status other than 200) with the
well-shaped `body42`. -/
def env206 : Env :=
  ⟨DoOutcome.success ⟨206, "206 Partial Content", body42Text, some body42, ""⟩, none⟩

/-- Environment: upstream answers 404 with a non-JSON body. -/
def env404 : Env :=
  ⟨DoOutcome.success ⟨404, "404 Not Found", "upstream failure", none, ""⟩, none⟩

/-- Environment: upstream answers 200 with the body `null`, which is valid
JSON and not an object, yet unmarshals into a nil map without error. -/
def envNull : Env :=
  ⟨DoOutcome.success ⟨200, "200 OK", "null", some Json.null, ""⟩, none⟩

/-- Environment: upstream answers 200 with a top-level JSON array, on which
`json.Unmarshal` into a map fails. -/
def envArr : Env :=
  ⟨DoOutcome.success ⟨200, "200 OK", "[\"x\"]", some (Json.arr [Json.str "x"]),
    "json: cannot unmarshal array into Go value of type map"⟩, none⟩

/-- Upstream 200 body whose `choices[0].message` is a string, not an
object: a shape violation at the `message` level. -/
def badShapeJson : Json :=
  Json.obj [("choices", Json.arr [Json.obj [("message", Json.str "oops")]])]

/-- Raw text of `badShapeJson`. -/
def badShapeText : String :=
  "\x7b\"choices\":[\x7b\"message\":\"oops\"\x7d]\x7d"

/-- Environment: upstream answers 200 with `badShapeJson`. -/
def envBadShape : Env :=
  ⟨DoOutcome.success ⟨200, "200 OK", badShapeText, some badShapeJson, ""⟩, none⟩

/-- Inbound body whose question is a single space (whitespace-only). -/
def reqWhitespace : Option Json := some (Json.obj [("question", Json.str " ")])

/-- Inbound body whose question is the empty string. -/
def reqEmpty : Option Json := some (Json.obj [("question", Json.str "")])

/-- Inbound body with question "hi" plus an unrelated extra field. -/
def reqHiExtra : Option Json :=
  some (Json.obj [("question", Json.str "hi"), ("extra", Json.bool true)])

/-! ## Helper lemmas: branch behaviour of the handler -/

lemma chatHandler_invalid_body (reqBody : Option Json) (env : Env)
    (h : goUnmarshalMap reqBody = none) :
    chatHandler reqBody env = (⟨400, [("error", Json.str "Invalid request body")]⟩, []) := by
  simp only [chatHandler, h]

lemma chatHandler_do_failure (reqBody : Option Json) (env : Env)
    (fields : List (String × Json)) (q errMsg : String)
    (hm : goUnmarshalMap reqBody = some fields)
    (hq : getField fields "question" = some (Json.str q)) (hne : q ≠ "")
    (hdo : env.doOutcome = DoOutcome.failure errMsg) :
    chatHandler reqBody env =
      (⟨500, [("error", Json.str ("Error sending request: " ++ errMsg))]⟩,
       [requestPayload q]) := by
  simp only [chatHandler, hm, hq, if_neg hne, hdo]

lemma chatHandler_read_failure (reqBody : Option Json) (env : Env)
    (fields : List (String × Json)) (q : String) (r : UpstreamResult) (readErrMsg : String)
    (hm : goUnmarshalMap reqBody = some fields)
    (hq : getField fields "question" = some (Json.str q)) (hne : q ≠ "")
    (hdo : env.doOutcome = DoOutcome.success r)
    (hre : env.readError = some readErrMsg) :
    chatHandler reqBody env =
      (⟨500, [("error", Json.str ("Error reading response body: " ++ readErrMsg))]⟩,
       [requestPayload q]) := by
  simp only [chatHandler, hm, hq, if_neg hne, hdo, hre]

lemma chatHandler_non200 (reqBody : Option Json) (env : Env)
    (fields : List (String × Json)) (q : String) (r : UpstreamResult)
    (hm : goUnmarshalMap reqBody = some fields)
    (hq : getField fields "question" = some (Json.str q)) (hne : q ≠ "")
    (hdo : env.doOutcome = DoOutcome.success r)
    (hre : env.readError = none) (hst : r.statusCode ≠ 200) :
    chatHandler reqBody env =
      (⟨r.statusCode,
        [("error", Json.str ("API returned non-200 status: " ++ r.statusText
            ++ "\nBody: " ++ r.body))]⟩,
       [requestPayload q]) := by
  simp only [chatHandler, hm, hq, if_neg hne, hdo, hre, if_pos hst]

lemma chatHandler_200 (reqBody : Option Json) (env : Env)
    (fields : List (String × Json)) (q : String) (r : UpstreamResult)
    (hm : goUnmarshalMap reqBody = some fields)
    (hq : getField fields "question" = some (Json.str q)) (hne : q ≠ "")
    (hdo : env.doOutcome = DoOutcome.success r)
    (hre : env.readError = none) (hst : r.statusCode = 200) :
    chatHandler reqBody env =
      (extractResponse r.bodyJson r.unmarshalErr, [requestPayload q]) := by
  simp only [chatHandler, hm, hq, if_neg hne, hdo, hre, if_neg (not_not_intro hst)]

lemma chatHandler_invalid_question (reqBody : Option Json) (env : Env)
    (fields : List (String × Json))
    (hm : goUnmarshalMap reqBody = some fields)
    (h : getField fields "question" = none
        ∨ (∃ j, getField fields "question" = some j ∧ ∀ s, j ≠ Json.str s)
        ∨ getField fields "question" = some (Json.str "")) :
    chatHandler reqBody env =
      (⟨400, [("error", Json.str "Invalid question format or empty question")]⟩, []) := by
  rcases h with h | ⟨j, hj, hns⟩ | h
  · simp only [chatHandler, hm, h]
  · cases j with
    | str s => exact absurd rfl (hns s)
    | null => simp only [chatHandler, hm, hj]
    | bool b => simp only [chatHandler, hm, hj]
    | num n => simp only [chatHandler, hm, hj]
    | arr a => simp only [chatHandler, hm, hj]
    | obj o => simp only [chatHandler, hm, hj]
  · simp only [chatHandler, hm, h, if_true]

lemma validatedQuestion_some (reqBody : Option Json) (q : String)
    (h : validatedQuestion reqBody = some q) :
    ∃ fields, goUnmarshalMap reqBody = some fields
      ∧ getField fields "question" = some (Json.str q) ∧ q ≠ "" := by
  unfold validatedQuestion at h
  cases hm : goUnmarshalMap reqBody with
  | none => rw [hm] at h; simp only [] at h; exact absurd h (by simp)
  | some fields =>
    rw [hm] at h
    simp only [] at h
    cases hf : getField fields "question" with
    | none => rw [hf] at h; simp only [] at h; exact absurd h (by simp)
    | some v =>
      rw [hf] at h
      cases v with
      | null => simp only [] at h; exact absurd h (by simp)
      | bool b => simp only [] at h; exact absurd h (by simp)
      | num n => simp only [] at h; exact absurd h (by simp)
      | arr a => simp only [] at h; exact absurd h (by simp)
      | obj o => simp only [] at h; exact absurd h (by simp)
      | str s =>
        simp only [] at h
        by_cases hs : s = ""
        · rw [if_pos hs] at h; exact absurd h (by simp)
        · rw [if_neg hs] at h
          obtain rfl : s = q := Option.some.inj h
          exact ⟨fields, rfl, hf, hs⟩

lemma chatHandler_calls_valid (reqBody : Option Json) (env : Env)
    (fields : List (String × Json)) (q : String)
    (hm : goUnmarshalMap reqBody = some fields)
    (hq : getField fields "question" = some (Json.str q)) (hne : q ≠ "") :
    (chatHandler reqBody env).2 = [requestPayload q] := by
  cases hdo : env.doOutcome with
  | failure errMsg =>
    rw [chatHandler_do_failure reqBody env fields q errMsg hm hq hne hdo]
  | success r =>
    cases hre : env.readError with
    | some readErrMsg =>
      rw [chatHandler_read_failure reqBody env fields q r readErrMsg hm hq hne hdo hre]
    | none =>
      by_cases hst : r.statusCode = 200
      · rw [chatHandler_200 reqBody env fields q r hm hq hne hdo hre hst]
      · rw [chatHandler_non200 reqBody env fields q r hm hq hne hdo hre hst]

lemma chatHandler_calls_none (reqBody : Option Json) (env : Env)
    (h : validatedQuestion reqBody = none) :
    (chatHandler reqBody env).2 = [] := by
  unfold validatedQuestion at h
  cases hm : goUnmarshalMap reqBody with
  | none => rw [chatHandler_invalid_body reqBody env hm]
  | some fields =>
    rw [hm] at h
    simp only [] at h
    cases hf : getField fields "question" with
    | none => rw [chatHandler_invalid_question reqBody env fields hm (Or.inl hf)]
    | some v =>
      rw [hf] at h
      cases v with
      | null =>
        rw [chatHandler_invalid_question reqBody env fields hm
          (Or.inr (Or.inl ⟨Json.null, hf, fun s hcon => Json.noConfusion hcon⟩))]
      | bool b =>
        rw [chatHandler_invalid_question reqBody env fields hm
          (Or.inr (Or.inl ⟨Json.bool b, hf, fun s hcon => Json.noConfusion hcon⟩))]
      | num n =>
        rw [chatHandler_invalid_question reqBody env fields hm
          (Or.inr (Or.inl ⟨Json.num n, hf, fun s hcon => Json.noConfusion hcon⟩))]
      | arr a =>
        rw [chatHandler_invalid_question reqBody env fields hm
          (Or.inr (Or.inl ⟨Json.arr a, hf, fun s hcon => Json.noConfusion hcon⟩))]
      | obj o =>
        rw [chatHandler_invalid_question reqBody env fields hm
          (Or.inr (Or.inl ⟨Json.obj o, hf, fun s hcon => Json.noConfusion hcon⟩))]
      | str s =>
        simp only [] at h
        by_cases hs : s = ""
        · subst hs
          rw [chatHandler_invalid_question reqBody env fields hm (Or.inr (Or.inr hf))]
        · rw [if_neg hs] at h; exact absurd h (by simp)

/-! ## Helper lemmas: behaviour of the extraction stage -/

lemma extractResponse_parse_error (bodyJson : Option Json) (e : String)
    (h : goUnmarshalMap bodyJson = none) :
    extractResponse bodyJson e =
      ⟨500, [("error", Json.str ("Error parsing JSON response: " ++ e))]⟩ := by
  simp only [extractResponse, h]

lemma extractResponse_of_extractContent (bodyJson : Option Json) (e : String)
    (result : List (String × Json)) (h : goUnmarshalMap bodyJson = some result) :
    extractResponse bodyJson e =
      (match extractContent result with
       | some answer => ⟨200, [("answer", Json.str answer)]⟩
       | none => shapeErrorResponse) := by
  unfold extractResponse extractContent
  rw [h]
  simp only []
  cases getField result "choices" with
  | none => rfl
  | some v =>
    cases v with
    | null => rfl
    | bool b => rfl
    | num n => rfl
    | str s => rfl
    | obj o => rfl
    | arr choices =>
      cases choices with
      | nil => rfl
      | cons c rest =>
        cases c with
        | null => rfl
        | bool b => rfl
        | num n => rfl
        | str s => rfl
        | arr a => rfl
        | obj firstChoice =>
          simp only []
          cases getField firstChoice "message" with
          | none => rfl
          | some m =>
            cases m with
            | null => rfl
            | bool b => rfl
            | num n => rfl
            | str s => rfl
            | arr a => rfl
            | obj message =>
              simp only []
              cases getField message "content" with
              | none => rfl
              | some ct => cases ct <;> rfl

lemma extractResponse_ok (bodyJson : Option Json) (e answer : String)
    (result : List (String × Json)) (hm : goUnmarshalMap bodyJson = some result)
    (hc : extractContent result = some answer) :
    extractResponse bodyJson e = ⟨200, [("answer", Json.str answer)]⟩ := by
  rw [extractResponse_of_extractContent bodyJson e result hm, hc]

lemma extractResponse_shape (bodyJson : Option Json) (e : String)
    (result : List (String × Json)) (hm : goUnmarshalMap bodyJson = some result)
    (hc : extractContent result = none) :
    extractResponse bodyJson e = shapeErrorResponse := by
  rw [extractResponse_of_extractContent bodyJson e result hm, hc]

lemma extractResponse_body_shape (bodyJson : Option Json) (e : String) :
    (∃ s, (extractResponse bodyJson e).body = [("answer", Json.str s)]) ∨
    ∃ m, (extractResponse bodyJson e).body = [("error", Json.str m)] := by
  cases hm : goUnmarshalMap bodyJson with
  | none =>
    right
    exact ⟨"Error parsing JSON response: " ++ e, by rw [extractResponse_parse_error bodyJson e hm]⟩
  | some result =>
    rw [extractResponse_of_extractContent bodyJson e result hm]
    cases extractContent result with
    | none => exact Or.inr ⟨"Unexpected response structure from API", rfl⟩
    | some a => exact Or.inl ⟨a, rfl⟩

lemma answer_body_ne_error_body (s e : String) :
    ([("answer", Json.str s)] : List (String × Json)) ≠ [("error", Json.str e)] := by
  simp

lemma chatHandler_status400 (reqBody : Option Json) (env : Env)
    (h : validatedQuestion reqBody = none) :
    chatHandler reqBody env = (⟨400, [("error", Json.str "Invalid request body")]⟩, []) ∨
    chatHandler reqBody env =
      (⟨400, [("error", Json.str "Invalid question format or empty question")]⟩, []) := by
  unfold validatedQuestion at h
  cases hm : goUnmarshalMap reqBody with
  | none => exact Or.inl (chatHandler_invalid_body reqBody env hm)
  | some fields =>
    rw [hm] at h
    simp only [] at h
    right
    cases hf : getField fields "question" with
    | none => exact chatHandler_invalid_question reqBody env fields hm (Or.inl hf)
    | some v =>
      rw [hf] at h
      cases v with
      | null =>
        exact chatHandler_invalid_question reqBody env fields hm
          (Or.inr (Or.inl ⟨Json.null, hf, fun s hcon => Json.noConfusion hcon⟩))
      | bool b =>
        exact chatHandler_invalid_question reqBody env fields hm
          (Or.inr (Or.inl ⟨Json.bool b, hf, fun s hcon => Json.noConfusion hcon⟩))
      | num n =>
        exact chatHandler_invalid_question reqBody env fields hm
          (Or.inr (Or.inl ⟨Json.num n, hf, fun s hcon => Json.noConfusion hcon⟩))
      | arr a =>
        exact chatHandler_invalid_question reqBody env fields hm
          (Or.inr (Or.inl ⟨Json.arr a, hf, fun s hcon => Json.noConfusion hcon⟩))
      | obj o =>
        exact chatHandler_invalid_question reqBody env fields hm
          (Or.inr (Or.inl ⟨Json.obj o, hf, fun s hcon => Json.noConfusion hcon⟩))
      | str s =>
        simp only [] at h
        by_cases hs : s = ""
        · subst hs
          exact chatHandler_invalid_question reqBody env fields hm (Or.inr (Or.inr hf))
        · rw [if_neg hs] at h; exact absurd h (by simp)

lemma chatHandler_body_shape (reqBody : Option Json) (env : Env) :
    (∃ s, (chatHandler reqBody env).1.body = [("answer", Json.str s)]) ∨
    ∃ m, (chatHandler reqBody env).1.body = [("error", Json.str m)] := by
  cases hv : validatedQuestion reqBody with
  | none =>
    right
    rcases chatHandler_status400 reqBody env hv with h | h
    · exact ⟨"Invalid request body", by rw [h]⟩
    · exact ⟨"Invalid question format or empty question", by rw [h]⟩
  | some q =>
    obtain ⟨fields, hm, hq, hne⟩ := validatedQuestion_some reqBody q hv
    cases hdo : env.doOutcome with
    | failure errMsg =>
      right
      exact ⟨"Error sending request: " ++ errMsg,
        by rw [chatHandler_do_failure reqBody env fields q errMsg hm hq hne hdo]⟩
    | success r =>
      cases hre : env.readError with
      | some readErrMsg =>
        right
        exact ⟨"Error reading response body: " ++ readErrMsg,
          by rw [chatHandler_read_failure reqBody env fields q r readErrMsg hm hq hne hdo hre]⟩
      | none =>
        by_cases hst : r.statusCode = 200
        · rw [chatHandler_200 reqBody env fields q r hm hq hne hdo hre hst]
          exact extractResponse_body_shape r.bodyJson r.unmarshalErr
        · right
          exact ⟨"API returned non-200 status: " ++ r.statusText ++ "\nBody: " ++ r.body,
            by rw [chatHandler_non200 reqBody env fields q r hm hq hne hdo hre hst]⟩

/-! ## Claims -/

/-- C1 counterexample: with upstream status 201 — a 2xx status — and the
well-shaped round-trip body, the relay does not return the answer: it
answers with status 201 and an `error` body, so the claim's "on a well-shaped
2xx body the answer equals choices[0].message.content" is false at this
input (line 120 accepts only status exactly 200). -/
theorem c1_counterexample_status201 :
    (chatHandler reqHi env201).1.status = 201 ∧
    (chatHandler reqHi env201).1.status ≠ 200 ∧
    bodyKeys (chatHandler reqHi env201).1 = ["error"] := by
  exact ⟨rfl, by decide, rfl⟩

/-- C1 (amended: "2xx" tightened to "status exactly 200", which is all the
code accepts at line 120): for every upstream response with status 200 whose
body unmarshals to a map from which `choices[0].message.content` is the
string `s`, the relay returns status 200 with body exactly `answer = s` —
no post-processing, truncation, or sanitization. The round-trip scenario
(body42, content "42") is the witness below. -/
theorem c1_success_answer_verbatim (reqBody : Option Json) (env : Env)
    (q : String) (r : UpstreamResult) (result : List (String × Json)) (s : String)
    (hq : validatedQuestion reqBody = some q)
    (hdo : env.doOutcome = DoOutcome.success r)
    (hre : env.readError = none)
    (hst : r.statusCode = 200)
    (hum : goUnmarshalMap r.bodyJson = some result)
    (hc : extractContent result = some s) :
    (chatHandler reqBody env).1 = ⟨200, [("answer", Json.str s)]⟩ := by
  obtain ⟨fields, hm, hgf, hne⟩ := validatedQuestion_some reqBody q hq
  rw [chatHandler_200 reqBody env fields q r hm hgf hne hdo hre hst]
  exact extractResponse_ok r.bodyJson r.unmarshalErr s result hum hc

/-- Witness for C1 at the round-trip scenario: upstream body
`body42` at status 200 yields `answer = "42"` at status 200. -/
theorem c1_success_answer_verbatim_witness :
    (chatHandler reqHi env200ok).1 = ⟨200, [("answer", Json.str "42")]⟩ :=
  c1_success_answer_verbatim reqHi env200ok "hi"
    ⟨200, "200 OK", body42Text, some body42, ""⟩
    [("choices", Json.arr [Json.obj [("message", Json.obj [("content", Json.str "42")])]])]
    "42" (by decide) rfl rfl rfl rfl (by decide)

/-- C2 counterexample: an upstream response with 2xx status 202 whose body is
the empty JSON object (no `choices`) does not produce HTTP 500 with the
shape error — the relay passes the 202 through with the non-200 error body,
because only status exactly 200 reaches the extractor. -/
theorem c2_counterexample_status202 :
    (chatHandler reqHi env202).1.status = 202 ∧
    (chatHandler reqHi env202).1.status ≠ 500 := by
  exact ⟨rfl, by decide⟩

/-- C2 (amended: "2xx" tightened to "status exactly 200"): for every
status-200 upstream body that unmarshals into a map but lacks a non-empty
`choices` array, or lacks `choices[0].message.content` as a string — at any
nested level — the relay returns HTTP 500 with the one shape-error body
"Unexpected response structure from API"; all shape violations collapse to
this single response. -/
theorem c2_shape_violation_single_error (reqBody : Option Json) (env : Env)
    (q : String) (r : UpstreamResult) (result : List (String × Json))
    (hq : validatedQuestion reqBody = some q)
    (hdo : env.doOutcome = DoOutcome.success r)
    (hre : env.readError = none)
    (hst : r.statusCode = 200)
    (hum : goUnmarshalMap r.bodyJson = some result)
    (hc : extractContent result = none) :
    (chatHandler reqBody env).1 =
      ⟨500, [("error", Json.str "Unexpected response structure from API")]⟩ := by
  obtain ⟨fields, hm, hgf, hne⟩ := validatedQuestion_some reqBody q hq
  rw [chatHandler_200 reqBody env fields q r hm hgf hne hdo hre hst]
  exact extractResponse_shape r.bodyJson r.unmarshalErr result hum hc

/-- Witness for C2: a 200 body whose `choices[0].message` is a string, not
an object, yields the single shape error at HTTP 500. -/
theorem c2_shape_violation_single_error_witness :
    (chatHandler reqHi envBadShape).1 =
      ⟨500, [("error", Json.str "Unexpected response structure from API")]⟩ :=
  c2_shape_violation_single_error reqHi envBadShape "hi"
    ⟨200, "200 OK", badShapeText, some badShapeJson, ""⟩
    [("choices", Json.arr [Json.obj [("message", Json.str "oops")]])]
    (by decide) rfl rfl rfl rfl (by decide)

/-- C3 counterexample: the whitespace-only question " " passes validation
(the code compares against "" without trimming, line 57), so an upstream
call is made and — with a well-shaped upstream answer — status 200 is
returned, not 400, refuting the claim's "whitespace-only" case. -/
theorem c3_counterexample_whitespace :
    (chatHandler reqWhitespace env200ok).1.status = 200 ∧
    (chatHandler reqWhitespace env200ok).2.length = 1 := by
  exact ⟨rfl, rfl⟩

/-- C3 (amended: "whitespace-only" dropped — the code does not trim, so only
absent, non-string, or exactly-empty questions are rejected): for every
inbound body decoding to a map whose `question` is absent, not a string, or
the empty string, the handler returns HTTP 400 with exactly
`error = "Invalid question format or empty question"` and issues no
upstream call. -/
theorem c3_invalid_question_rejected (reqBody : Option Json) (env : Env)
    (fields : List (String × Json))
    (hm : goUnmarshalMap reqBody = some fields)
    (h : getField fields "question" = none
        ∨ (∃ j, getField fields "question" = some j ∧ ∀ s, j ≠ Json.str s)
        ∨ getField fields "question" = some (Json.str "")) :
    (chatHandler reqBody env).1 =
      ⟨400, [("error", Json.str "Invalid question format or empty question")]⟩ ∧
    (chatHandler reqBody env).2 = [] := by
  rw [chatHandler_invalid_question reqBody env fields hm h]
  exact ⟨rfl, rfl⟩

/-- Witness for C3 at the scenario body with an empty question: exactly the
specified error, status 400, zero upstream calls. -/
theorem c3_invalid_question_rejected_witness :
    (chatHandler reqEmpty envFail).1 =
      ⟨400, [("error", Json.str "Invalid question format or empty question")]⟩ ∧
    (chatHandler reqEmpty envFail).2 = [] :=
  c3_invalid_question_rejected reqEmpty envFail [("question", Json.str "")] rfl
    (Or.inr (Or.inr rfl))

/-- C4 counterexample: upstream status 206 — a 2xx status — with a
well-shaped body is not handed to the extractor: the relay passes 206
through with an `error` body, and its response differs from what extraction
of that body would produce. -/
theorem c4_counterexample_status206 :
    (chatHandler reqHi env206).1.status = 206 ∧
    bodyKeys (chatHandler reqHi env206).1 = ["error"] ∧
    (chatHandler reqHi env206).1 ≠ extractResponse (some body42) "" := by
  refine ⟨rfl, rfl, ?_⟩
  intro h
  exact absurd (congrArg OutResponse.status h) (by decide)

/-- C4 (amended: extraction happens only for status exactly 200, not for all
2xx): for every upstream response with status ≠ 200 — including 2xx statuses
other than 200 — the relay returns that same status with an `error` body
containing the upstream status text and raw body; and for status exactly
200 the response is the extractor's result on the raw body. -/
theorem c4_non200_passthrough (reqBody : Option Json) (env : Env)
    (q : String) (r : UpstreamResult)
    (hq : validatedQuestion reqBody = some q)
    (hdo : env.doOutcome = DoOutcome.success r)
    (hre : env.readError = none) :
    (r.statusCode ≠ 200 →
      (chatHandler reqBody env).1 =
        ⟨r.statusCode,
         [("error", Json.str ("API returned non-200 status: " ++ r.statusText
            ++ "\nBody: " ++ r.body))]⟩) ∧
    (r.statusCode = 200 →
      (chatHandler reqBody env).1 = extractResponse r.bodyJson r.unmarshalErr) := by
  obtain ⟨fields, hm, hgf, hne⟩ := validatedQuestion_some reqBody q hq
  constructor
  · intro hst
    rw [chatHandler_non200 reqBody env fields q r hm hgf hne hdo hre hst]
  · intro hst
    rw [chatHandler_200 reqBody env fields q r hm hgf hne hdo hre hst]

/-- Witness for C4 at upstream status 404: the status is passed through and
the error body carries the upstream status text and raw body. -/
theorem c4_non200_passthrough_witness :
    (chatHandler reqHi env404).1 =
      ⟨404, [("error",
        Json.str "API returned non-200 status: 404 Not Found\nBody: upstream failure")]⟩ :=
  (c4_non200_passthrough reqHi env404 "hi"
    ⟨404, "404 Not Found", "upstream failure", none, ""⟩
    (by decide) rfl rfl).1 (by decide)

/-- C5: for every validated question `q`, the single upstream payload is
`requestPayload q`, whose `messages` are exactly the constant system message
followed by one user message carrying `q` verbatim, and whose sampling
values are the fixed temperature 1/2, top_p 1, max_tokens 1024 and the fixed
model id — none dependent on the caller's input. -/
theorem c5_upstream_payload (reqBody : Option Json) (env : Env) (q : String)
    (hq : validatedQuestion reqBody = some q) :
    (chatHandler reqBody env).2 = [requestPayload q] ∧
    jGet (requestPayload q) "messages" = some (Json.arr [systemMessage, userMessage q]) ∧
    jGet (userMessage q) "role" = some (Json.str "user") ∧
    jGet (userMessage q) "content" = some (Json.str q) ∧
    jGet (requestPayload q) "model" = some (Json.str "meta/llama3-70b-instruct") ∧
    jGet (requestPayload q) "temperature" = some (Json.num (1/2)) ∧
    jGet (requestPayload q) "top_p" = some (Json.num 1) ∧
    jGet (requestPayload q) "max_tokens" = some (Json.num 1024) := by
  obtain ⟨fields, hm, hgf, hne⟩ := validatedQuestion_some reqBody q hq
  exact ⟨chatHandler_calls_valid reqBody env fields q hm hgf hne,
    rfl, rfl, rfl, rfl, rfl, rfl, rfl⟩

/-- Witness for C5 at question "hi". -/
theorem c5_upstream_payload_witness :
    (chatHandler reqHi envFail).2 = [requestPayload "hi"] ∧
    jGet (requestPayload "hi") "messages"
      = some (Json.arr [systemMessage, userMessage "hi"]) ∧
    jGet (userMessage "hi") "role" = some (Json.str "user") ∧
    jGet (userMessage "hi") "content" = some (Json.str "hi") ∧
    jGet (requestPayload "hi") "model" = some (Json.str "meta/llama3-70b-instruct") ∧
    jGet (requestPayload "hi") "temperature" = some (Json.num (1/2)) ∧
    jGet (requestPayload "hi") "top_p" = some (Json.num 1) ∧
    jGet (requestPayload "hi") "max_tokens" = some (Json.num 1024) :=
  c5_upstream_payload reqHi envFail "hi" (by decide)

/-- C6: on every run — any inbound body, any upstream outcome — the
response body is a one-field JSON object that is either `answer` or `error`:
one of the two shapes holds and the other is impossible. -/
theorem c6_answer_xor_error (reqBody : Option Json) (env : Env) :
    ((∃ s, (chatHandler reqBody env).1.body = [("answer", Json.str s)]) ∧
      ¬ ∃ m, (chatHandler reqBody env).1.body = [("error", Json.str m)]) ∨
    ((∃ m, (chatHandler reqBody env).1.body = [("error", Json.str m)]) ∧
      ¬ ∃ s, (chatHandler reqBody env).1.body = [("answer", Json.str s)]) := by
  rcases chatHandler_body_shape reqBody env with ⟨s, hs⟩ | ⟨m, hm⟩
  · left
    refine ⟨⟨s, hs⟩, ?_⟩
    rintro ⟨m, hm⟩
    rw [hs] at hm
    exact answer_body_ne_error_body s m hm
  · right
    refine ⟨⟨m, hm⟩, ?_⟩
    rintro ⟨s, hs⟩
    rw [hm] at hs
    exact answer_body_ne_error_body s m hs.symm

/-- C7: at most one upstream request is issued per run, exactly one whenever
validation succeeds, and a transport-level failure of that single call is
terminal: status 500 with an `error` body, the one issued call never
retried. -/
theorem c7_single_upstream_call (reqBody : Option Json) (env : Env) :
    (chatHandler reqBody env).2.length ≤ 1 ∧
    (validatedQuestion reqBody ≠ none → (chatHandler reqBody env).2.length = 1) ∧
    ∀ errMsg, env.doOutcome = DoOutcome.failure errMsg →
      validatedQuestion reqBody ≠ none →
        (chatHandler reqBody env).1.status = 500 ∧
        (chatHandler reqBody env).1.body =
          [("error", Json.str ("Error sending request: " ++ errMsg))] ∧
        (chatHandler reqBody env).2.length = 1 := by
  cases hv : validatedQuestion reqBody with
  | none =>
    refine ⟨?_, fun h => absurd rfl h, fun errMsg hdo h => absurd rfl h⟩
    rw [chatHandler_calls_none reqBody env hv]
    simp
  | some q =>
    obtain ⟨fields, hm, hgf, hne⟩ := validatedQuestion_some reqBody q hv
    have hcalls := chatHandler_calls_valid reqBody env fields q hm hgf hne
    refine ⟨?_, fun _ => ?_, ?_⟩
    · rw [hcalls]; simp
    · rw [hcalls]; rfl
    · intro errMsg hdo _
      rw [chatHandler_do_failure reqBody env fields q errMsg hm hgf hne hdo]
      exact ⟨rfl, rfl, rfl⟩

/-- Witness for C7: with the upstream connection refused, the handler
returns 500 with an `error` body after issuing exactly one call. -/
theorem c7_single_upstream_call_witness :
    (chatHandler reqHi envFail).1.status = 500 ∧
    (chatHandler reqHi envFail).1.body =
      [("error", Json.str ("Error sending request: " ++ "connection refused"))] ∧
    (chatHandler reqHi envFail).2.length = 1 :=
  (c7_single_upstream_call reqHi envFail).2.2 "connection refused" rfl (by decide)

/-- C8: for every inbound body on which the decode into a map fails
(malformed JSON, or valid JSON whose top level is neither an object nor
null), the handler returns HTTP 400 with the `Invalid request body` error
and makes no upstream call. -/
theorem c8_invalid_body_rejected (reqBody : Option Json) (env : Env)
    (h : goUnmarshalMap reqBody = none) :
    (chatHandler reqBody env).1 = ⟨400, [("error", Json.str "Invalid request body")]⟩ ∧
    (chatHandler reqBody env).2 = [] := by
  rw [chatHandler_invalid_body reqBody env h]
  exact ⟨rfl, rfl⟩

/-- Witness for C8 at a top-level JSON array body. -/
theorem c8_invalid_body_rejected_witness :
    (chatHandler (some (Json.arr [])) envFail).1 =
      ⟨400, [("error", Json.str "Invalid request body")]⟩ ∧
    (chatHandler (some (Json.arr [])) envFail).2 = [] :=
  c8_invalid_body_rejected (some (Json.arr [])) envFail rfl

/-- C9 counterexample: a 200 body of `null` is valid JSON and not a JSON
object, yet `json.Unmarshal` accepts it into a nil map, so the relay answers
with the shape error, whose message does not begin with
"Error parsing JSON response" — refuting the claim for this non-object
body. -/
theorem c9_counterexample_null :
    (chatHandler reqHi envNull).1 =
      ⟨500, [("error", Json.str "Unexpected response structure from API")]⟩ ∧
    ("Error parsing JSON response".data.isPrefixOf
      "Unexpected response structure from API".data) = false := by
  exact ⟨rfl, rfl⟩

/-- C9 (amended: top-level `null` excluded — it unmarshals into a nil map
and falls through to the shape error): for every upstream 200 response whose
body is valid JSON but is neither an object nor null, the relay returns
HTTP 500 through the JSON-parse-failure branch, with a message beginning
"Error parsing JSON response". -/
theorem c9_nonobject_parse_error (reqBody : Option Json) (env : Env)
    (q : String) (r : UpstreamResult) (v : Json)
    (hq : validatedQuestion reqBody = some q)
    (hdo : env.doOutcome = DoOutcome.success r)
    (hre : env.readError = none)
    (hst : r.statusCode = 200)
    (hbv : r.bodyJson = some v)
    (hum : goUnmarshalMap r.bodyJson = none) :
    (chatHandler reqBody env).1 =
      ⟨500, [("error", Json.str ("Error parsing JSON response: " ++ r.unmarshalErr))]⟩ ∧
    ("Error parsing JSON response".data.isPrefixOf
      ("Error parsing JSON response: " ++ r.unmarshalErr).data) = true := by
  obtain ⟨fields, hm, hgf, hne⟩ := validatedQuestion_some reqBody q hq
  constructor
  · rw [chatHandler_200 reqBody env fields q r hm hgf hne hdo hre hst]
    exact extractResponse_parse_error r.bodyJson r.unmarshalErr hum
  · rcases r.unmarshalErr with ⟨l⟩
    rfl

/-- Witness for C9 at a top-level-array 200 body. -/
theorem c9_nonobject_parse_error_witness :
    (chatHandler reqHi envArr).1 =
      ⟨500, [("error", Json.str ("Error parsing JSON response: "
        ++ "json: cannot unmarshal array into Go value of type map"))]⟩ ∧
    ("Error parsing JSON response".data.isPrefixOf
      ("Error parsing JSON response: "
        ++ "json: cannot unmarshal array into Go value of type map").data) = true :=
  c9_nonobject_parse_error reqHi envArr "hi"
    ⟨200, "200 OK", "[\"x\"]", some (Json.arr [Json.str "x"]),
      "json: cannot unmarshal array into Go value of type map"⟩
    (Json.arr [Json.str "x"]) (by decide) rfl rfl rfl rfl rfl

/-- C10: two inbound bodies that decode to maps carrying the same `question`
string are indistinguishable downstream — same upstream payload, and, for
the same upstream behaviour, the same response; other inbound fields have
no influence. -/
theorem c10_question_determines_outcome (b1 b2 : Option Json) (env : Env)
    (f1 f2 : List (String × Json)) (q : String)
    (h1 : goUnmarshalMap b1 = some f1) (h2 : goUnmarshalMap b2 = some f2)
    (hq1 : getField f1 "question" = some (Json.str q))
    (hq2 : getField f2 "question" = some (Json.str q)) :
    chatHandler b1 env = chatHandler b2 env := by
  by_cases hne : q = ""
  · subst hne
    rw [chatHandler_invalid_question b1 env f1 h1 (Or.inr (Or.inr hq1)),
        chatHandler_invalid_question b2 env f2 h2 (Or.inr (Or.inr hq2))]
  · cases hdo : env.doOutcome with
    | failure errMsg =>
      rw [chatHandler_do_failure b1 env f1 q errMsg h1 hq1 hne hdo,
          chatHandler_do_failure b2 env f2 q errMsg h2 hq2 hne hdo]
    | success r =>
      cases hre : env.readError with
      | some readErrMsg =>
        rw [chatHandler_read_failure b1 env f1 q r readErrMsg h1 hq1 hne hdo hre,
            chatHandler_read_failure b2 env f2 q r readErrMsg h2 hq2 hne hdo hre]
      | none =>
        by_cases hst : r.statusCode = 200
        · rw [chatHandler_200 b1 env f1 q r h1 hq1 hne hdo hre hst,
              chatHandler_200 b2 env f2 q r h2 hq2 hne hdo hre hst]
        · rw [chatHandler_non200 b1 env f1 q r h1 hq1 hne hdo hre hst,
              chatHandler_non200 b2 env f2 q r h2 hq2 hne hdo hre hst]

/-- Witness for C10: adding an unrelated `extra` field to the inbound body
changes nothing. -/
theorem c10_question_determines_outcome_witness :
    chatHandler reqHiExtra env200ok = chatHandler reqHi env200ok :=
  c10_question_determines_outcome reqHiExtra reqHi env200ok
    [("question", Json.str "hi"), ("extra", Json.bool true)]
    [("question", Json.str "hi")] "hi" rfl rfl rfl rfl
